import Mathlib

/-
Verification of the CineBase movie-catalog backend.

This file shallowly embeds the parts of the repository that the reviewed
claims are about:
  * `app/models/movie.py`  — the `Movie` model, its storage check
    constraints (mirrored by `alembic/versions/0001_initial_migration_sqlite.py`)
    and its derived display accessors;
  * `app/api/v1/health.py` — the three dependency probes and the
    health-aggregation endpoint;
  * `app/api/v1/cache.py`  — the cache write-and-verify diagnostic endpoint.

The `tmdb_snapshot` column is a JSON blob; its values are modelled by the
`Json` inductive below, and the Python operations the source applies to it
(`in`, subscript, `int(...)`, slicing, truthiness, iteration, `str(...)`)
are modelled operation by operation, with raised exceptions represented by
`Except PyErr`.  Python `float` values are outside the modelled value
space: none of the reviewed code paths produce or consume them.
-/

namespace CineBase

/-- JSON values as stored in the `tmdb_snapshot` column and as produced by
`json.loads`.  Numbers are integers: the reviewed code never manipulates
JSON floats. -/
inductive Json where
  | null
  | bool (b : Bool)
  | num (n : Int)
  | str (s : String)
  | arr (elems : List Json)
  | obj (fields : List (String × Json))

/-- Python exceptions raised by the modelled operations. -/
inductive PyErr where
  | typeError (msg : String)
  | valueError (msg : String)
  | keyError (key : String)
deriving DecidableEq, Repr

/-- First binding of `key` in a field list (Python dicts hold one binding
per key; the list model reads the first). -/
def lookupField (key : String) : List (String × Json) → Option Json
  | [] => none
  | (k, v) :: rest => if k = key then some v else lookupField key rest

/-- Python truthiness of a JSON value (`if x:`). -/
def Json.truthy : Json → Bool
  | .null => false
  | .bool b => b
  | .num n => n != 0
  | .str s => !s.data.isEmpty
  | .arr xs => !xs.isEmpty
  | .obj fs => !fs.isEmpty

/-- Python `==` between a JSON value and a string (used by `in` on lists):
equal only when the value is that string. -/
def Json.eqStr : Json → String → Bool
  | .str s, k => s == k
  | _, _ => false

/-- Substring test on character lists (Python `in` on strings). -/
def listHasSubstring : List Char → List Char → Bool
  | hay, needle =>
    if needle.isPrefixOf hay then true
    else
      match hay with
      | [] => false
      | _ :: t => listHasSubstring t needle

/-- Python `key in x` for a string `key`: key test on dicts, substring test
on strings, membership on lists; `TypeError` on non-container values. -/
def Json.containsKey (key : String) : Json → Except PyErr Bool
  | .obj fs => .ok (lookupField key fs).isSome
  | .str s => .ok (listHasSubstring s.data key.data)
  | .arr xs => .ok (xs.any (fun x => Json.eqStr x key))
  | .null => .error (.typeError "argument of type NoneType is not iterable")
  | .bool _ => .error (.typeError "argument of type bool is not iterable")
  | .num _ => .error (.typeError "argument of type int is not iterable")

/-- Python `x[key]` for a string `key`: dict lookup (`KeyError` when the
key is absent), `TypeError` on every non-dict value. -/
def Json.getItem (key : String) : Json → Except PyErr Json
  | .obj fs =>
      match lookupField key fs with
      | some v => .ok v
      | none => .error (.keyError key)
  | .str _ => .error (.typeError "string indices must be integers")
  | .arr _ => .error (.typeError "list indices must be integers")
  | .null => .error (.typeError "NoneType object is not subscriptable")
  | .bool _ => .error (.typeError "bool object is not subscriptable")
  | .num _ => .error (.typeError "int object is not subscriptable")

/-- Python `x[:4]`: prefix of strings and lists, `TypeError` otherwise. -/
def Json.sliceTo4 : Json → Except PyErr Json
  | .str s => .ok (.str (String.mk (s.data.take 4)))
  | .arr xs => .ok (.arr (xs.take 4))
  | .null => .error (.typeError "NoneType object is not subscriptable")
  | .bool _ => .error (.typeError "bool object is not subscriptable")
  | .num _ => .error (.typeError "int object is not subscriptable")
  | .obj _ => .error (.typeError "unhashable type in dict slice")

/-- Python iteration (`for y in x`): list elements, string characters,
dict keys; `TypeError` otherwise. -/
def Json.pyIter : Json → Except PyErr (List Json)
  | .arr xs => .ok xs
  | .str s => .ok (s.data.map (fun c => Json.str (String.mk [c])))
  | .obj fs => .ok (fs.map (fun p => Json.str p.1))
  | .null => .error (.typeError "NoneType object is not iterable")
  | .bool _ => .error (.typeError "bool object is not iterable")
  | .num _ => .error (.typeError "int object is not iterable")

/-- Whitespace stripped by Python `int(str)`. -/
def isPySpace (c : Char) : Bool :=
  c = ' ' || c = '\t' || c = '\n' || c = '\r' || c.toNat = 11 || c.toNat = 12

/-- Drop leading Python whitespace. -/
def dropLeadingWs : List Char → List Char
  | [] => []
  | c :: cs => if isPySpace c then dropLeadingWs cs else c :: cs

/-- Digit run accepted by Python `int(str)` after the optional sign:
non-empty decimal digits with single underscores strictly between digits.
`needDigit` is true at the start and directly after an underscore. -/
def pyDigits (acc : Nat) (needDigit : Bool) : List Char → Option Nat
  | [] => if needDigit then none else some acc
  | c :: cs =>
      if c.isDigit then pyDigits (10 * acc + (c.toNat - 48)) false cs
      else if c = '_' then
        if needDigit then none else pyDigits acc true cs
      else none

/-- Python `int(s)` for a string `s`: strip whitespace, optional sign,
digit run; `none` models the `ValueError`. -/
def pyIntOfString (s : String) : Option Int :=
  let t := (dropLeadingWs (dropLeadingWs s.data).reverse).reverse
  match t with
  | '+' :: rest => (pyDigits 0 true rest).map Int.ofNat
  | '-' :: rest => (pyDigits 0 true rest).map (fun n => -(Int.ofNat n : Int))
  | rest => (pyDigits 0 true rest).map Int.ofNat

/-- Python `int(x)` on a JSON value. -/
def pyInt : Json → Except PyErr Int
  | .num n => .ok n
  | .bool b => .ok (if b then 1 else 0)
  | .str s =>
      match pyIntOfString s with
      | some n => .ok n
      | none => .error (.valueError ("invalid literal for int with base 10: " ++ s))
  | .null => .error (.typeError "int argument must not be NoneType")
  | .arr _ => .error (.typeError "int argument must not be list")
  | .obj _ => .error (.typeError "int argument must not be dict")

/- Python `str(x)` of a non-string (f-string interpolation): repr-style
rendering.  The inner escaping Python's `repr` applies to special
characters inside nested strings is elided; the reviewed code only ever
interpolates plain strings, where `str` is the identity. -/
mutual
def Json.pyRepr : Json → String
  | .null => "None"
  | .bool true => "True"
  | .bool false => "False"
  | .num n => toString n
  | .str s => "\x27" ++ s ++ "\x27"
  | .arr xs => "[" ++ String.intercalate ", " (pyReprList xs) ++ "]"
  | .obj fs => "\x7b" ++ String.intercalate ", " (pyReprFields fs) ++ "\x7d"

def pyReprList : List Json → List String
  | [] => []
  | x :: xs => Json.pyRepr x :: pyReprList xs

def pyReprFields : List (String × Json) → List String
  | [] => []
  | (k, v) :: fs => ("\x27" ++ k ++ "\x27: " ++ Json.pyRepr v) :: pyReprFields fs
end

/-- Python `str(x)` as used inside an f-string. -/
def Json.pyStr : Json → String
  | .str s => s
  | v => Json.pyRepr v

/-- Python `str.lower` (they agree on ASCII; the model lower-cases
ASCII letters character by character). -/
def pyLower (s : String) : String :=
  String.mk (s.data.map Char.toLower)

/-- Truthiness of an optional string column (`if self.title:`). -/
def optStrTruthy : Option String → Bool
  | some s => !s.data.isEmpty
  | none => false

/-- Truthiness of an optional integer column (`if self.year:`). -/
def optIntTruthy : Option Int → Bool
  | some n => n != 0
  | none => false

/-- Truthiness of an optional list column (`if self.genres:`). -/
def optListTruthy : Option (List String) → Bool
  | some l => !l.isEmpty
  | none => false

/-- The `movies` row, from `app/models/movie.py` (and the SQLite
migration).  The `id`, timestamp and `tmdb_snapshot_updated` columns play
no part in any reviewed claim and are omitted.  Field order:
`tmdb_id`, `title`, `year`, `genres`, `overview`, `custom_poster_path`,
`custom_trailer_url`, `tmdb_snapshot`, `is_custom`. -/
structure Movie where
  tmdb_id : Option Int
  title : Option String
  year : Option Int
  genres : Option (List String)
  overview : Option String
  custom_poster_path : Option String
  custom_trailer_url : Option String
  tmdb_snapshot : Option Json
  is_custom : Bool

/-- `Movie.genres_list`: `self.genres or []`. -/
def Movie.genres_list (m : Movie) : List String :=
  match m.genres with
  | some l => if l.isEmpty then [] else l
  | none => []

/-- `Movie.has_genre`: `genre.lower() in [g.lower() for g in self.genres_list]`. -/
def Movie.has_genre (m : Movie) (genre : String) : Bool :=
  (m.genres_list.map pyLower).contains (pyLower genre)

/-- `Movie.display_title`. -/
def Movie.display_title (m : Movie) : Except PyErr Json :=
  if optStrTruthy m.title then .ok (.str (m.title.getD ""))
  else
    match m.tmdb_snapshot with
    | some snap =>
        if snap.truthy then
          match Json.containsKey "title" snap with
          | .error e => .error e
          | .ok true => Json.getItem "title" snap
          | .ok false => .ok (.str "Unknown Title")
        else .ok (.str "Unknown Title")
    | none => .ok (.str "Unknown Title")

/-- `Movie.display_year`.  The `try` block wraps only
`int(self.tmdb_snapshot["release_date"][:4])` and catches exactly
`ValueError` and `TypeError`; the `in` test runs outside it. -/
def Movie.display_year (m : Movie) : Except PyErr (Option Int) :=
  if optIntTruthy m.year then .ok m.year
  else
    match m.tmdb_snapshot with
    | some snap =>
        if snap.truthy then
          match Json.containsKey "release_date" snap with
          | .error e => .error e
          | .ok true =>
              match (do
                let v ← Json.getItem "release_date" snap
                let sl ← Json.sliceTo4 v
                pyInt sl : Except PyErr Int) with
              | .ok n => .ok (some n)
              | .error (.valueError _) => .ok none
              | .error (.typeError _) => .ok none
              | .error e => .error e
          | .ok false => .ok none
        else .ok none
    | none => .ok none

/-- `Movie.display_overview`. -/
def Movie.display_overview (m : Movie) : Except PyErr Json :=
  if optStrTruthy m.overview then .ok (.str (m.overview.getD ""))
  else
    match m.tmdb_snapshot with
    | some snap =>
        if snap.truthy then
          match Json.containsKey "overview" snap with
          | .error e => .error e
          | .ok true => Json.getItem "overview" snap
          | .ok false => .ok (.str "")
        else .ok (.str "")
    | none => .ok (.str "")

/-- `Movie.display_genres`: the snapshot branch is the comprehension
`[genre["name"] for genre in self.tmdb_snapshot["genres"]]`. -/
def Movie.display_genres (m : Movie) : Except PyErr (List Json) :=
  if optListTruthy m.genres then .ok ((m.genres.getD []).map Json.str)
  else
    match m.tmdb_snapshot with
    | some snap =>
        if snap.truthy then
          match Json.containsKey "genres" snap with
          | .error e => .error e
          | .ok true => do
              let gv ← Json.getItem "genres" snap
              let items ← Json.pyIter gv
              items.mapM (Json.getItem "name")
          | .ok false => .ok []
        else .ok []
    | none => .ok []

/-- `Movie.poster_url`. -/
def Movie.poster_url (m : Movie) : Except PyErr (Option String) :=
  if optStrTruthy m.custom_poster_path then
    .ok (some ("/media/posters/" ++ m.custom_poster_path.getD ""))
  else
    match m.tmdb_snapshot with
    | some snap =>
        if snap.truthy then
          match Json.containsKey "poster_path" snap with
          | .error e => .error e
          | .ok true => do
              let v ← Json.getItem "poster_path" snap
              .ok (some ("https://image.tmdb.org/t/p/w500" ++ Json.pyStr v))
          | .ok false => .ok none
        else .ok none
    | none => .ok none

/-! ## Storage-boundary check constraints (`Movie.__table_args__`,
mirrored in the SQLite migration).  SQL `length` on these `String` columns
is the character count. -/

/-- `year IS NULL OR (year >= 1888 AND year <= 2030)`. -/
def movies_year_range_check (m : Movie) : Bool :=
  match m.year with
  | none => true
  | some y => 1888 ≤ y && y ≤ 2030

/-- `title IS NULL OR length(title) > 0`. -/
def movies_title_not_empty (m : Movie) : Bool :=
  match m.title with
  | none => true
  | some t => 0 < t.length

/-- `title IS NULL OR length(title) <= 255`. -/
def movies_title_length_check (m : Movie) : Bool :=
  match m.title with
  | none => true
  | some t => t.length ≤ 255

/-- `tmdb_id IS NOT NULL OR is_custom = true`. -/
def movies_tmdb_or_custom_check (m : Movie) : Bool :=
  m.tmdb_id.isSome || m.is_custom

/-- A row is accepted at the storage boundary exactly when every check
constraint of the `movies` table holds. -/
def movieRowAccepted (m : Movie) : Bool :=
  movies_year_range_check m && movies_title_not_empty m &&
    movies_title_length_check m && movies_tmdb_or_custom_check m

/-! ## Health probes and aggregation (`app/api/v1/health.py`).

Each probe's dependency call is abstracted by an `Except String Unit`
outcome: `.ok ()` when the awaited I/O succeeds, `.error e` when it raises
an exception whose `str(e)` is `e`.  Each probe's `try/except` structure is
reproduced around that outcome. -/

/-- Result dictionary of one probe: `status` and `message`. -/
structure CheckResult where
  status : String
  message : String
deriving DecidableEq, Repr

/-- `check_database`: a trivial query inside `try`; any exception becomes
status `unhealthy` carrying the error text. -/
def check_database (query : Except String Unit) : CheckResult :=
  match query with
  | .ok _ => ⟨"healthy", "Database connection successful"⟩
  | .error e => ⟨"unhealthy", "Database connection failed: " ++ e⟩

/-- `check_redis`: a ping inside `try`; any exception becomes status
`unhealthy` carrying the error text. -/
def check_redis (ping : Except String Unit) : CheckResult :=
  match ping with
  | .ok _ => ⟨"healthy", "Redis connection successful"⟩
  | .error e => ⟨"unhealthy", "Redis connection failed: " ++ e⟩

/-- Whether `check_redis` awaits `redis_client.close()` before returning:
the close sits inside the `try` after the ping, so the `except` path
returns without it. -/
def check_redis_closes (ping : Except String Unit) : Bool :=
  match ping with
  | .ok _ => true
  | .error _ => false

/-- `not settings.tmdb_api_key or settings.tmdb_api_key == "your-tmdb-api-key-here"`. -/
def tmdb_key_unconfigured (key : String) : Bool :=
  key == "" || key == "your-tmdb-api-key-here"

/-- `check_tmdb`: warning when the key is unconfigured; otherwise a 5 s
HTTP request whose exceptions become status `warning` (not `unhealthy`). -/
def check_tmdb (key : String) (request : Except String Unit) : CheckResult :=
  if tmdb_key_unconfigured key then ⟨"warning", "TMDB API key not configured"⟩
  else
    match request with
    | .ok _ => ⟨"healthy", "TMDB API connection successful"⟩
    | .error e => ⟨"warning", "TMDB API connection failed: " ++ e⟩

/-- `asyncio.gather(..., return_exceptions=True)` hands the aggregator
either a probe result or a raised exception; the aggregator turns an
exception into an `unhealthy` entry with `str(e)` as the message. -/
def exnToCheck (r : Except String CheckResult) : CheckResult :=
  match r with
  | .ok c => c
  | .error e => ⟨"unhealthy", e⟩

/-- Body of the `GET /health/` response: overall status plus the three
individual probe results (timestamp, version and timing fields carry no
decision logic and are omitted). -/
structure HealthResponse where
  status : String
  checks : List (String × CheckResult)
deriving DecidableEq, Repr

/-- `health_check`: reduce the three probe outcomes.  The result pair is
(HTTP status code, response body); in the `unhealthy` case the body is the
`HTTPException(503)` detail. -/
def health_check (db redis tmdb : Except String CheckResult) :
    Nat × HealthResponse :=
  let checks : List (String × CheckResult) :=
    [("database", exnToCheck db), ("redis", exnToCheck redis),
     ("tmdb", exnToCheck tmdb)]
  let unhealthy_checks :=
    (checks.filter (fun c => decide (c.2.status = "unhealthy"))).map (fun c => c.1)
  let warning_checks :=
    (checks.filter (fun c => decide (c.2.status = "warning"))).map (fun c => c.1)
  if !unhealthy_checks.isEmpty then (503, ⟨"unhealthy", checks⟩)
  else if !warning_checks.isEmpty then (200, ⟨"degraded", checks⟩)
  else (200, ⟨"healthy", checks⟩)

/-! ## Redis store semantics and the cache write-and-verify endpoint
(`app/api/v1/cache.py`).

The store maps keys to values with an absolute expiry instant; operations
take the current time.  `GET /cache/test` performs `setex`, `get` and
`ttl` in sequence; `tSet`, `tGet` and `tTtl` are the instants of those
three awaits (all equal when nothing intervenes). -/

/-- Key–value entries: key, value, expiry instant. -/
structure RedisStore where
  entries : List (String × String × Int)

/-- `SETEX key ttl value`. -/
def redis_setex (st : RedisStore) (now : Int) (key : String) (ttl : Int)
    (value : String) : RedisStore :=
  ⟨(key, value, now + ttl) :: st.entries.filter (fun e => e.1 != key)⟩

/-- `GET key`: the stored value while it has not expired. -/
def redis_get (st : RedisStore) (now : Int) (key : String) : Option String :=
  match st.entries.find? (fun e => e.1 == key) with
  | some (_, v, exp) => if now < exp then some v else none
  | none => none

/-- `TTL key`: remaining seconds, `-2` when the key is absent/expired. -/
def redis_ttl (st : RedisStore) (now : Int) (key : String) : Int :=
  match st.entries.find? (fun e => e.1 == key) with
  | some (_, _, exp) => if now < exp then exp - now else -2
  | none => -2

/-! ### `json.dumps` / `json.loads`

`json.dumps` with its defaults: separators `", "` and `": "`,
`ensure_ascii=True` (characters outside printable ASCII become `\uXXXX`,
astral characters become surrogate pairs). -/

/-- Lower-case hexadecimal digit. -/
def hexDigitChar (n : Nat) : Char :=
  if n < 10 then Char.ofNat (48 + n) else Char.ofNat (87 + n)

/-- `\uXXXX` escape for a code unit. -/
def uEscape (n : Nat) : List Char :=
  ['\\', 'u', hexDigitChar (n / 4096 % 16), hexDigitChar (n / 256 % 16),
   hexDigitChar (n / 16 % 16), hexDigitChar (n % 16)]

/-- One character of a JSON string literal as `json.dumps` emits it. -/
def escapeJsonChar (c : Char) : List Char :=
  if c = '"' then ['\\', '"']
  else if c = '\\' then ['\\', '\\']
  else if c = '\n' then ['\\', 'n']
  else if c = '\t' then ['\\', 't']
  else if c = '\r' then ['\\', 'r']
  else if c.toNat = 8 then ['\\', 'b']
  else if c.toNat = 12 then ['\\', 'f']
  else if c.toNat < 32 then uEscape c.toNat
  else if c.toNat < 127 then [c]
  else if c.toNat < 65536 then uEscape c.toNat
  else
    uEscape (55296 + (c.toNat - 65536) / 1024) ++
      uEscape (56320 + (c.toNat - 65536) % 1024)

/-- A JSON string literal, quotes included. -/
def escapeJsonString (s : String) : List Char :=
  '"' :: (s.data.map escapeJsonChar).flatten ++ ['"']

/-- Comma-space separated concatenation (the default item separator). -/
def commaSep : List (List Char) → List Char
  | [] => []
  | [x] => x
  | x :: xs => x ++ ',' :: ' ' :: commaSep xs

mutual
def dumpJson : Json → List Char
  | .null => "null".data
  | .bool true => "true".data
  | .bool false => "false".data
  | .num n => (toString n).data
  | .str s => escapeJsonString s
  | .arr xs => '[' :: commaSep (dumpList xs) ++ [']']
  | .obj fs => '\x7b' :: commaSep (dumpFields fs) ++ ['\x7d']

def dumpList : List Json → List (List Char)
  | [] => []
  | x :: xs => dumpJson x :: dumpList xs

def dumpFields : List (String × Json) → List (List Char)
  | [] => []
  | (k, v) :: fs => (escapeJsonString k ++ ':' :: ' ' :: dumpJson v) :: dumpFields fs
end

/-- `json.dumps` with default arguments. -/
def jsonDumps (j : Json) : String :=
  String.mk (dumpJson j)

/-- JSON whitespace. -/
def skipJsonWs : List Char → List Char
  | [] => []
  | c :: cs =>
      if c = ' ' || c = '\t' || c = '\n' || c = '\r' then skipJsonWs cs
      else c :: cs

/-- Value of one hexadecimal digit. -/
def hexVal (c : Char) : Option Nat :=
  if c.isDigit then some (c.toNat - 48)
  else if 'a' ≤ c && c ≤ 'f' then some (c.toNat - 87)
  else if 'A' ≤ c && c ≤ 'F' then some (c.toNat - 55)
  else none

/-- Four hexadecimal digits. -/
def parseHex4 : List Char → Option (Nat × List Char)
  | a :: b :: c :: d :: rest =>
      match hexVal a, hexVal b, hexVal c, hexVal d with
      | some x, some y, some z, some w =>
          some (4096 * x + 256 * y + 16 * z + w, rest)
      | _, _, _, _ => none
  | _ => none

/-- Body of a JSON string literal after the opening quote; returns the
decoded characters and the input after the closing quote.  Surrogate
pairs written as `\uXXXX\uYYYY` are recombined (a lone surrogate, which
Lean's `Char` cannot carry, decodes as U+0000). -/
def parseStringChars : Nat → List Char → Option (List Char × List Char)
  | 0, _ => none
  | _, [] => none
  | fuel + 1, c :: rest =>
      if c = '"' then some ([], rest)
      else if c = '\\' then
        match rest with
        | [] => none
        | e :: r2 =>
            if e = 'u' then
              match parseHex4 r2 with
              | some (n, r3) =>
                  if 55296 ≤ n && n < 56320 then
                    match r3 with
                    | '\\' :: 'u' :: r4 =>
                        match parseHex4 r4 with
                        | some (n2, r5) =>
                            if 56320 ≤ n2 && n2 < 57344 then
                              match parseStringChars fuel r5 with
                              | some (cs, r6) =>
                                  some (Char.ofNat
                                    (65536 + (n - 55296) * 1024 + (n2 - 56320)) :: cs, r6)
                              | none => none
                            else none
                        | none => none
                    | _ => none
                  else
                    match parseStringChars fuel r3 with
                    | some (cs, r4) => some (Char.ofNat n :: cs, r4)
                    | none => none
              | none => none
            else
              match
                (if e = '"' then some '"'
                 else if e = '\\' then some '\\'
                 else if e = '/' then some '/'
                 else if e = 'n' then some '\n'
                 else if e = 't' then some '\t'
                 else if e = 'r' then some '\r'
                 else if e = 'b' then some (Char.ofNat 8)
                 else if e = 'f' then some (Char.ofNat 12)
                 else none) with
              | some d =>
                  match parseStringChars fuel r2 with
                  | some (cs, r3) => some (d :: cs, r3)
                  | none => none
              | none => none
      else
        match parseStringChars fuel rest with
        | some (cs, r2) => some (c :: cs, r2)
        | none => none

/-- Greedy run of decimal digits. -/
def parseDigitRun (acc : Nat) : List Char → Nat × List Char
  | [] => (acc, [])
  | c :: cs =>
      if c.isDigit then parseDigitRun (10 * acc + (c.toNat - 48)) cs
      else (acc, c :: cs)

/-- A JSON integer literal.  A following `.`, `e` or `E` would make it a
float, which is outside the modelled value space, so the parse fails. -/
def parseJsonInt : List Char → Option (Int × List Char)
  | '-' :: c :: cs =>
      if c.isDigit then
        match parseDigitRun (c.toNat - 48) cs with
        | (n, rest) =>
            match rest with
            | '.' :: _ => none
            | 'e' :: _ => none
            | 'E' :: _ => none
            | _ => some (-(Int.ofNat n), rest)
      else none
  | c :: cs =>
      if c.isDigit then
        match parseDigitRun (c.toNat - 48) cs with
        | (n, rest) =>
            match rest with
            | '.' :: _ => none
            | 'e' :: _ => none
            | 'E' :: _ => none
            | _ => some (Int.ofNat n, rest)
      else none
  | [] => none

mutual
def parseValue : Nat → List Char → Option (Json × List Char)
  | 0, _ => none
  | fuel + 1, input =>
      match skipJsonWs input with
      | 'n' :: 'u' :: 'l' :: 'l' :: rest => some (Json.null, rest)
      | 't' :: 'r' :: 'u' :: 'e' :: rest => some (Json.bool true, rest)
      | 'f' :: 'a' :: 'l' :: 's' :: 'e' :: rest => some (Json.bool false, rest)
      | '"' :: rest =>
          match parseStringChars (rest.length + 1) rest with
          | some (cs, r) => some (Json.str (String.mk cs), r)
          | none => none
      | '[' :: rest =>
          (match skipJsonWs rest with
           | ']' :: r2 => some (Json.arr [], r2)
           | other =>
               match parseItems fuel other with
               | some (xs, r2) => some (Json.arr xs, r2)
               | none => none)
      | '\x7b' :: rest =>
          (match skipJsonWs rest with
           | '\x7d' :: r2 => some (Json.obj [], r2)
           | other =>
               match parseMembers fuel other with
               | some (fs, r2) => some (Json.obj fs, r2)
               | none => none)
      | other =>
          match parseJsonInt other with
          | some (n, r) => some (Json.num n, r)
          | none => none

def parseItems : Nat → List Char → Option (List Json × List Char)
  | 0, _ => none
  | fuel + 1, input =>
      match parseValue fuel input with
      | some (v, rest) =>
          (match skipJsonWs rest with
           | ',' :: r2 =>
               match parseItems fuel r2 with
               | some (xs, r3) => some (v :: xs, r3)
               | none => none
           | ']' :: r2 => some ([v], r2)
           | _ => none)
      | none => none

def parseMembers : Nat → List Char → Option (List (String × Json) × List Char)
  | 0, _ => none
  | fuel + 1, input =>
      match skipJsonWs input with
      | '"' :: rest =>
          match parseStringChars (rest.length + 1) rest with
          | some (kcs, r1) =>
              (match skipJsonWs r1 with
               | ':' :: r2 =>
                   match parseValue fuel r2 with
                   | some (v, r3) =>
                       (match skipJsonWs r3 with
                        | ',' :: r4 =>
                            match parseMembers fuel r4 with
                            | some (fs, r5) => some ((String.mk kcs, v) :: fs, r5)
                            | none => none
                        | '\x7d' :: r4 => some ([(String.mk kcs, v)], r4)
                        | _ => none)
                   | none => none
               | _ => none)
          | none => none
      | _ => none
end

/-- `json.loads` (over the modelled value space); the error text models
the `ValueError`'s message. -/
def jsonLoads (s : String) : Except String Json :=
  match parseValue (s.data.length + 1) s.data with
  | some (v, rest) =>
      if (skipJsonWs rest).isEmpty then .ok v else .error "Extra data"
  | none => .error "Expecting value"

/-- The diagnostic payload written by `GET /cache/test`: fixed message,
request timestamp, configured version, `int(time.time())`. -/
structure TestData where
  message : String
  timestamp : String
  version : String
  test_id : Int

/-- The `test_data` dict, in insertion order. -/
def TestData.toJson (d : TestData) : Json :=
  .obj [("message", .str d.message), ("timestamp", .str d.timestamp),
        ("version", .str d.version), ("test_id", .num d.test_id)]

/-- Outcome of `GET /cache/test`: HTTP 200 with the parsed payload, TTL
and byte size, or HTTP 500 with an error detail. -/
inductive CacheResult where
  | success (test_data : Json) (ttl_seconds : Int) (size_bytes : Nat)
  | err500 (detail : String)

/-- `test_cache`: write the payload under the fixed diagnostic key with a
60 s TTL, read it back, parse it, and report TTL and size.  An absent or
empty readback raises `HTTPException(500, "Failed to retrieve cached
data")`, which the endpoint's own `except Exception` clause catches and
re-raises as `HTTPException(500, "Cache test failed: 500: Failed to
retrieve cached data")`; a `json.loads` failure is similarly wrapped.
(The `finally` clause closes the Redis client on every one of these
paths.) -/
def test_cache (st : RedisStore) (tSet tGet tTtl : Int) (d : TestData) :
    CacheResult × RedisStore :=
  let test_key := "cinebase:test:cache"
  let payload := jsonDumps d.toJson
  let st1 := redis_setex st tSet test_key 60 payload
  match redis_get st1 tGet test_key with
  | some cached =>
      if cached.data.isEmpty then
        (.err500 "Cache test failed: 500: Failed to retrieve cached data", st1)
      else
        match jsonLoads cached with
        | .ok parsed =>
            (.success parsed (redis_ttl st1 tTtl test_key) cached.length, st1)
        | .error e => (.err500 ("Cache test failed: " ++ e), st1)
  | none =>
      (.err500 "Cache test failed: 500: Failed to retrieve cached data", st1)

/-! ## Predicates and concrete inputs used by the theorems below. -/

/-- Whether a modelled Python expression returned normally. -/
def exceptOk {α : Type} : Except PyErr α → Bool
  | .ok _ => true
  | .error _ => false

/-- A snapshot `genres` element the comprehension can consume: a dict
containing the key `"name"`. -/
def genreHasName : Json → Bool
  | .obj fs => (lookupField "name" fs).isSome
  | _ => false

/-- A snapshot `genres` value the comprehension can consume: a list of
dicts each containing `"name"`. -/
def genresShapeOk : Json → Bool
  | .arr xs => xs.all genreHasName
  | _ => false

/-- A snapshot on which the display accessors cannot raise: absent, or a
JSON object whose `genres` member (when present) is a list of
name-bearing objects. -/
def snapshotBenign : Option Json → Bool
  | none => true
  | some (.obj fs) =>
      match lookupField "genres" fs with
      | some v => genresShapeOk v
      | none => true
  | some _ => false

/-- The `"name"` member of a genres element (for stating what the
comprehension produces). -/
def nameOf : Json → Json
  | .obj fs => (lookupField "name" fs).getD Json.null
  | _ => Json.null

/-- A movie row carrying both a TMDB id and the custom flag. -/
def movieBoth : Movie :=
  ⟨some 603, none, none, none, none, none, none, none, true⟩

/-- A movie row carrying neither a TMDB id nor the custom flag. -/
def movieNeither : Movie :=
  ⟨none, none, none, none, none, none, none, none, false⟩

/-- A movie whose snapshot is the JSON number `5`. -/
def movieIntSnap5 : Movie :=
  ⟨none, none, none, none, none, none, none, some (Json.num 5), true⟩

/-- A movie whose snapshot is the JSON number `7`. -/
def movieIntSnap7 : Movie :=
  ⟨none, none, none, none, none, none, none, some (Json.num 7), true⟩

/-- A movie whose snapshot has the two-character release date `"99"`. -/
def movieRd99 : Movie :=
  ⟨none, none, none, none, none, none, none,
   some (Json.obj [("release_date", Json.str "99")]), true⟩

/-- A movie whose snapshot has release date `"2019-05-01"`. -/
def movieRd2019 : Movie :=
  ⟨none, none, none, none, none, none, none,
   some (Json.obj [("release_date", Json.str "2019-05-01")]), true⟩

/-- A movie whose snapshot has release date `"bad"`. -/
def movieRdBad : Movie :=
  ⟨none, none, none, none, none, none, none,
   some (Json.obj [("release_date", Json.str "bad")]), true⟩

/-- A movie with a full, well-formed snapshot and no local overrides. -/
def movieSnapFull : Movie :=
  ⟨some 603, none, none, none, none, none, none,
   some (Json.obj
     [("title", Json.str "The Matrix"),
      ("overview", Json.str "A hacker learns the truth."),
      ("release_date", Json.str "1999-03-31"),
      ("genres", Json.arr [Json.obj [("name", Json.str "Action")],
                           Json.obj [("name", Json.str "Sci-Fi")]]),
      ("poster_path", Json.str "/abc.jpg")]), false⟩

/-- A movie with two stored genres and nothing else. -/
def movieTwoGenres : Movie :=
  ⟨none, none, none, some ["Drama", "Sci-Fi"], none, none, none, none, true⟩

/-- A concrete diagnostic payload as the endpoint builds it. -/
def testData0 : TestData :=
  ⟨"Hello from CineBase+ cache!", "2026-10-12T00:00:00", "1.0.0", 1760000000⟩

/-! ## Theorems -/

/-- C1 counterexample: the storage-boundary constraint
`movies_tmdb_or_custom_check` is an inclusive disjunction, so a row with
`tmdb_id` set AND `is_custom = true` is accepted, not rejected as the
claimed exclusivity would require. -/
theorem tmdb_and_custom_both_accepted :
    movieRowAccepted movieBoth = true ∧
      movieBoth.tmdb_id.isSome = true ∧ movieBoth.is_custom = true :=
  ⟨rfl, rfl, rfl⟩

/-- C1 (amended): the storage-boundary check enforces that AT LEAST one of
(`tmdb_id` non-null) or (`is_custom` true) holds: every accepted row
satisfies the disjunction, and a row with neither is rejected. -/
theorem movie_check_at_least_one (m : Movie) :
    (movieRowAccepted m = true → m.tmdb_id.isSome = true ∨ m.is_custom = true) ∧
      (m.tmdb_id = none → m.is_custom = false → movieRowAccepted m = false) := by
  constructor
  · intro h
    simp only [movieRowAccepted, Bool.and_eq_true] at h
    have h4 := h.2
    simpa [movies_tmdb_or_custom_check, Bool.or_eq_true] using h4
  · intro h1 h2
    simp [movieRowAccepted, movies_tmdb_or_custom_check, h1, h2]

/-- C1 witness: the at-least-one theorem applied to a concrete row with
neither field set, which the storage boundary rejects. -/
theorem movie_check_at_least_one_witness :
    movieRowAccepted movieNeither = false :=
  (movie_check_at_least_one movieNeither).2 rfl rfl

/-- C5: the health aggregator reduces the three probe results with the
precedence any-unhealthy → overall `unhealthy` / HTTP 503, else
any-warning → `degraded` / 200, else `healthy` / 200, and the response
body always carries all three individual probe results. -/
theorem health_aggregation_precedence (db redis tmdb : CheckResult) :
    ((db.status = "unhealthy" ∨ redis.status = "unhealthy" ∨
        tmdb.status = "unhealthy") →
      health_check (.ok db) (.ok redis) (.ok tmdb) =
        (503, ⟨"unhealthy",
          [("database", db), ("redis", redis), ("tmdb", tmdb)]⟩)) ∧
      (db.status ≠ "unhealthy" → redis.status ≠ "unhealthy" →
        tmdb.status ≠ "unhealthy" →
        (db.status = "warning" ∨ redis.status = "warning" ∨
          tmdb.status = "warning") →
        health_check (.ok db) (.ok redis) (.ok tmdb) =
          (200, ⟨"degraded",
            [("database", db), ("redis", redis), ("tmdb", tmdb)]⟩)) ∧
      (db.status ≠ "unhealthy" → redis.status ≠ "unhealthy" →
        tmdb.status ≠ "unhealthy" →
        db.status ≠ "warning" → redis.status ≠ "warning" →
        tmdb.status ≠ "warning" →
        health_check (.ok db) (.ok redis) (.ok tmdb) =
          (200, ⟨"healthy",
            [("database", db), ("redis", redis), ("tmdb", tmdb)]⟩)) := by
  refine ⟨?_, ?_, ?_⟩
  · rintro (h | h | h) <;>
      by_cases h1 : db.status = "unhealthy" <;>
      by_cases h2 : redis.status = "unhealthy" <;>
      by_cases h3 : tmdb.status = "unhealthy" <;>
      simp_all [health_check, exnToCheck, List.filter]
  · intro h1 h2 h3 h
    rcases h with h | h | h <;>
      by_cases w1 : db.status = "warning" <;>
      by_cases w2 : redis.status = "warning" <;>
      by_cases w3 : tmdb.status = "warning" <;>
      simp_all [health_check, exnToCheck, List.filter]
  · intro h1 h2 h3 w1 w2 w3
    simp_all [health_check, exnToCheck, List.filter]

/-- C5 witness: one unhealthy probe among the three yields HTTP 503 with
overall status `unhealthy` and all three results in the body. -/
theorem health_aggregation_precedence_witness :
    health_check (.ok ⟨"healthy", "db ok"⟩) (.ok ⟨"unhealthy", "redis down"⟩)
        (.ok ⟨"warning", "tmdb slow"⟩) =
      (503, ⟨"unhealthy",
        [("database", ⟨"healthy", "db ok"⟩),
         ("redis", ⟨"unhealthy", "redis down"⟩),
         ("tmdb", ⟨"warning", "tmdb slow"⟩)]⟩) :=
  (health_aggregation_precedence _ _ _).1 (Or.inr (Or.inl rfl))

/-- C6 counterexample: an exception inside the TMDB probe is converted to
status `warning`, not `unhealthy` as the claim states. -/
theorem tmdb_probe_exception_is_warning :
    check_tmdb "k" (Except.error "boom") =
      ⟨"warning", "TMDB API connection failed: boom"⟩ ∧
      (check_tmdb "k" (Except.error "boom")).status ≠ "unhealthy" := by
  refine ⟨rfl, ?_⟩
  decide

/-- C6 (amended): every probe catches an exception raised inside it and
returns a status/message dictionary carrying the error text instead of
propagating; the database and Redis probes convert it to `unhealthy`, the
TMDB probe to `warning`. -/
theorem probes_catch_exceptions (e key : String)
    (hk : tmdb_key_unconfigured key = false) :
    check_database (Except.error e) =
        ⟨"unhealthy", "Database connection failed: " ++ e⟩ ∧
      check_redis (Except.error e) =
        ⟨"unhealthy", "Redis connection failed: " ++ e⟩ ∧
      check_tmdb key (Except.error e) =
        ⟨"warning", "TMDB API connection failed: " ++ e⟩ := by
  refine ⟨rfl, rfl, ?_⟩
  simp [check_tmdb, hk]

/-- C6 witness: the probes applied to a concrete raised exception. -/
theorem probes_catch_exceptions_witness :
    tmdb_key_unconfigured "k" = false ∧
      check_tmdb "k" (Except.error "boom") =
        ⟨"warning", "TMDB API connection failed: boom"⟩ :=
  ⟨by decide, (probes_catch_exceptions "boom" "k" (by decide)).2.2⟩

/-- C7: the TMDB probe never reports `unhealthy`: an unconfigured key
reports `warning` with the not-configured message, every request error
reports `warning` with the error text, and with the other two probes
healthy the aggregate is never `unhealthy` and the request returns 200. -/
theorem tmdb_probe_never_unhealthy (key : String)
    (req dbq ping : Except String Unit) :
    (check_tmdb key req).status ≠ "unhealthy" ∧
      (tmdb_key_unconfigured key = true →
        check_tmdb key req = ⟨"warning", "TMDB API key not configured"⟩) ∧
      (∀ e, req = Except.error e → tmdb_key_unconfigured key = false →
        check_tmdb key req =
          ⟨"warning", "TMDB API connection failed: " ++ e⟩) ∧
      (dbq = Except.ok () → ping = Except.ok () →
        (health_check (.ok (check_database dbq)) (.ok (check_redis ping))
            (.ok (check_tmdb key req))).1 = 200 ∧
          (health_check (.ok (check_database dbq)) (.ok (check_redis ping))
            (.ok (check_tmdb key req))).2.status ≠ "unhealthy") := by
  refine ⟨?_, ?_, ?_, ?_⟩
  · by_cases hk : tmdb_key_unconfigured key <;> cases req <;>
      simp [check_tmdb, hk]
  · intro hk
    simp [check_tmdb, hk]
  · intro e he hk
    simp [check_tmdb, hk, he]
  · intro hdb hping
    subst hdb; subst hping
    by_cases hk : tmdb_key_unconfigured key <;> cases req <;>
      simp [check_tmdb, check_database, check_redis, hk, health_check,
        exnToCheck, List.filter]

/-- C7 witness: an unconfigured key gives the warning result, and with the
other probes healthy the endpoint still returns 200. -/
theorem tmdb_probe_never_unhealthy_witness :
    check_tmdb "" (Except.ok ()) = ⟨"warning", "TMDB API key not configured"⟩ ∧
      (health_check (.ok (check_database (Except.ok ())))
          (.ok (check_redis (Except.ok ())))
          (.ok (check_tmdb "" (Except.ok ())))).1 = 200 :=
  ⟨(tmdb_probe_never_unhealthy "" (Except.ok ()) (Except.ok ())
      (Except.ok ())).2.1 rfl,
   ((tmdb_probe_never_unhealthy "" (Except.ok ()) (Except.ok ())
      (Except.ok ())).2.2.2 rfl rfl).1⟩

/-- C8: evaluation at the failing input.  When the Redis ping raises, the
probe returns its `unhealthy` result without awaiting
`redis_client.close()` — the `close` call sits inside the `try` after the
ping, so the error path leaks the connection. -/
theorem check_redis_leaks_on_ping_failure :
    check_redis_closes (Except.error "Connection refused") = false ∧
      check_redis (Except.error "Connection refused") =
        ⟨"unhealthy", "Redis connection failed: Connection refused"⟩ :=
  ⟨rfl, rfl⟩

/-! ### Helper lemmas for the display accessors -/

/-- Binding a successful `Except` computation applies the continuation. -/
theorem exceptBind_ok {ε α β : Type} (a : α) (f : α → Except ε β) :
    (Except.ok a >>= f) = f a := rfl

/-- `pure` in the `Except` monad is `Except.ok`. -/
theorem exceptPure_eq {ε α : Type} (a : α) : (pure a : Except ε α) = Except.ok a := rfl

/-- Binding a failed `Except` computation propagates the error. -/
theorem exceptBind_err {ε α β : Type} (e : ε) (f : α → Except ε β) :
    (Except.error e >>= f) = Except.error e := rfl

/-- A field list with a successful lookup is non-empty. -/
theorem lookupField_ne_nil {key : String} {fs : List (String × Json)} {v : Json}
    (h : lookupField key fs = some v) : fs.isEmpty = false := by
  cases fs with
  | nil => simp [lookupField] at h
  | cons p rest => rfl

/-- A non-empty optional string column is truthy. -/
theorem optStrTruthy_of_ne {t : String} (h : t ≠ "") :
    optStrTruthy (some t) = true := by
  cases t with
  | mk l =>
    cases l with
    | nil => exact absurd rfl h
    | cons c cs => simp [optStrTruthy]

/-- A non-empty optional list column is truthy. -/
theorem optListTruthy_of_ne {l : List String} (h : l ≠ []) :
    optListTruthy (some l) = true := by
  cases l with
  | nil => exact absurd rfl h
  | cons x xs => simp [optListTruthy]

/-- The genres comprehension on a list of name-bearing objects succeeds
and produces the name of each element in order. -/
theorem mapM_names {xs : List Json} (h : xs.all genreHasName = true) :
    xs.mapM (Json.getItem "name") = Except.ok (xs.map nameOf) := by
  induction xs with
  | nil => rw [List.mapM_nil, exceptPure_eq]; rfl
  | cons x rest ih =>
    rw [List.all_cons, Bool.and_eq_true] at h
    obtain ⟨hx, hrest⟩ := h
    cases x with
    | obj fs =>
      simp only [genreHasName] at hx
      obtain ⟨v, hv⟩ := Option.isSome_iff_exists.mp hx
      have hget : Json.getItem "name" (Json.obj fs) = Except.ok v := by
        simp [Json.getItem, hv]
      rw [List.mapM_cons, hget, exceptBind_ok, ih hrest, exceptBind_ok,
        exceptPure_eq]
      simp [nameOf, hv]
    | null => simp [genreHasName] at hx
    | bool b => simp [genreHasName] at hx
    | num n => simp [genreHasName] at hx
    | str s => simp [genreHasName] at hx
    | arr ys => simp [genreHasName] at hx

/-- C2 counterexample: with the snapshot holding the JSON number `5`
(truthy, non-container), `display_title` evaluates `"title" in 5`, which
raises `TypeError` — the accessor does not return a value. -/
theorem display_title_raises_on_int_snapshot :
    movieIntSnap5.display_title =
      Except.error (PyErr.typeError "argument of type int is not iterable") ∧
      exceptOk movieIntSnap5.display_title = false :=
  ⟨rfl, rfl⟩

/-- C2 (amended): for every Movie whose snapshot is absent or a JSON
object whose `genres` member (when present) is a list of name-bearing
objects, the four display accessors terminate and return a value without
raising. -/
theorem display_accessors_total (m : Movie)
    (h : snapshotBenign m.tmdb_snapshot = true) :
    exceptOk m.display_title = true ∧ exceptOk m.display_overview = true ∧
      exceptOk m.display_genres = true ∧ exceptOk m.poster_url = true := by
  refine ⟨?_, ?_, ?_, ?_⟩
  · by_cases ht : optStrTruthy m.title
    · simp [Movie.display_title, ht, exceptOk]
    · cases hsnap : m.tmdb_snapshot with
      | none => simp [Movie.display_title, ht, hsnap, exceptOk]
      | some j =>
        rw [hsnap] at h
        cases j with
        | obj fs =>
          by_cases he : fs.isEmpty
          · simp [Movie.display_title, ht, hsnap, Json.truthy, he, exceptOk]
          · cases hl : lookupField "title" fs with
            | none =>
                simp [Movie.display_title, ht, hsnap, Json.truthy, he,
                  Json.containsKey, hl, exceptOk]
            | some v =>
                simp [Movie.display_title, ht, hsnap, Json.truthy, he,
                  Json.containsKey, hl, Json.getItem, exceptOk]
        | null => simp [snapshotBenign] at h
        | bool b => simp [snapshotBenign] at h
        | num n => simp [snapshotBenign] at h
        | str s => simp [snapshotBenign] at h
        | arr xs => simp [snapshotBenign] at h
  · by_cases ho : optStrTruthy m.overview
    · simp [Movie.display_overview, ho, exceptOk]
    · cases hsnap : m.tmdb_snapshot with
      | none => simp [Movie.display_overview, ho, hsnap, exceptOk]
      | some j =>
        rw [hsnap] at h
        cases j with
        | obj fs =>
          by_cases he : fs.isEmpty
          · simp [Movie.display_overview, ho, hsnap, Json.truthy, he, exceptOk]
          · cases hl : lookupField "overview" fs with
            | none =>
                simp [Movie.display_overview, ho, hsnap, Json.truthy, he,
                  Json.containsKey, hl, exceptOk]
            | some v =>
                simp [Movie.display_overview, ho, hsnap, Json.truthy, he,
                  Json.containsKey, hl, Json.getItem, exceptOk]
        | null => simp [snapshotBenign] at h
        | bool b => simp [snapshotBenign] at h
        | num n => simp [snapshotBenign] at h
        | str s => simp [snapshotBenign] at h
        | arr xs => simp [snapshotBenign] at h
  · by_cases hg : optListTruthy m.genres
    · simp [Movie.display_genres, hg, exceptOk]
    · cases hsnap : m.tmdb_snapshot with
      | none => simp [Movie.display_genres, hg, hsnap, exceptOk]
      | some j =>
        rw [hsnap] at h
        cases j with
        | obj fs =>
          by_cases he : fs.isEmpty
          · simp [Movie.display_genres, hg, hsnap, Json.truthy, he, exceptOk]
          · cases hl : lookupField "genres" fs with
            | none =>
                simp [Movie.display_genres, hg, hsnap, Json.truthy, he,
                  Json.containsKey, hl, exceptOk]
            | some gv =>
                simp only [snapshotBenign, hl] at h
                cases gv with
                | arr xs =>
                    simp only [genresShapeOk] at h
                    have hdg : m.display_genres =
                        xs.mapM (Json.getItem "name") := by
                      simp [Movie.display_genres, hg, hsnap, Json.truthy, he,
                        Json.containsKey, hl, Json.getItem, Json.pyIter,
                        exceptBind_ok]
                    rw [hdg, mapM_names h]
                    rfl
                | null => simp [genresShapeOk] at h
                | bool b => simp [genresShapeOk] at h
                | num n => simp [genresShapeOk] at h
                | str s => simp [genresShapeOk] at h
                | obj gfs => simp [genresShapeOk] at h
        | null => simp [snapshotBenign] at h
        | bool b => simp [snapshotBenign] at h
        | num n => simp [snapshotBenign] at h
        | str s => simp [snapshotBenign] at h
        | arr xs => simp [snapshotBenign] at h
  · by_cases hp : optStrTruthy m.custom_poster_path
    · simp [Movie.poster_url, hp, exceptOk]
    · cases hsnap : m.tmdb_snapshot with
      | none => simp [Movie.poster_url, hp, hsnap, exceptOk]
      | some j =>
        rw [hsnap] at h
        cases j with
        | obj fs =>
          by_cases he : fs.isEmpty
          · simp [Movie.poster_url, hp, hsnap, Json.truthy, he, exceptOk]
          · cases hl : lookupField "poster_path" fs with
            | none =>
                simp [Movie.poster_url, hp, hsnap, Json.truthy, he,
                  Json.containsKey, hl, exceptOk]
            | some v =>
                simp [Movie.poster_url, hp, hsnap, Json.truthy, he,
                  Json.containsKey, hl, Json.getItem, exceptBind_ok, exceptOk]
        | null => simp [snapshotBenign] at h
        | bool b => simp [snapshotBenign] at h
        | num n => simp [snapshotBenign] at h
        | str s => simp [snapshotBenign] at h
        | arr xs => simp [snapshotBenign] at h

/-- C2 witness: the totality theorem applied to a movie with a full,
well-formed snapshot. -/
theorem display_accessors_total_witness :
    snapshotBenign movieSnapFull.tmdb_snapshot = true ∧
      exceptOk movieSnapFull.display_title = true ∧
      exceptOk movieSnapFull.display_genres = true :=
  ⟨rfl, (display_accessors_total movieSnapFull rfl).1,
    (display_accessors_total movieSnapFull rfl).2.2.1⟩

/-- C3 counterexample: a wrong-length numeric `release_date` is not a
parse failure for the code: `int("99"[:4])` is `99`, so `display_year`
returns 99 rather than absent. -/
theorem display_year_short_numeric :
    movieRd99.display_year = Except.ok (some 99) ∧
      movieRd99.display_year ≠ Except.ok none := by
  refine ⟨rfl, ?_⟩
  intro hcontra
  have h9 : (Except.ok (some 99) : Except PyErr (Option Int)) =
      Except.ok none := hcontra
  simp at h9

/-- C3 (amended): `display_year` returns the local `year` when set and
non-zero; otherwise, for a benign snapshot, it applies Python `int` to the
first up-to-4 characters of `release_date` (so `"2019-05-01"` yields 2019
and the short numeric `"99"` yields 99), returns absent on a parse
failure or a missing field, and never raises. -/
theorem display_year_first4 (m : Movie)
    (h : snapshotBenign m.tmdb_snapshot = true) :
    (∀ y, m.year = some y → y ≠ 0 → m.display_year = .ok (some y)) ∧
      (optIntTruthy m.year = false → ∀ fs s,
        m.tmdb_snapshot = some (.obj fs) →
        lookupField "release_date" fs = some (.str s) →
        m.display_year = .ok (pyIntOfString (String.mk (s.data.take 4)))) ∧
      (optIntTruthy m.year = false →
        (m.tmdb_snapshot = none ∨
          ∃ fs, m.tmdb_snapshot = some (.obj fs) ∧
            lookupField "release_date" fs = none) →
        m.display_year = .ok none) ∧
      exceptOk m.display_year = true := by
  refine ⟨?_, ?_, ?_, ?_⟩
  · intro y hy hne
    have hty : optIntTruthy (some y) = true := by simp [optIntTruthy, hne]
    simp [Movie.display_year, hy, hty]
  · intro hy fs s hsnap hl
    cases hpi : pyIntOfString (String.mk (s.data.take 4)) with
    | none =>
        simp [Movie.display_year, hy, hsnap, Json.truthy, lookupField_ne_nil hl,
          Json.containsKey, hl, Json.getItem, Json.sliceTo4, pyInt,
          exceptBind_ok, hpi]
    | some n =>
        simp [Movie.display_year, hy, hsnap, Json.truthy, lookupField_ne_nil hl,
          Json.containsKey, hl, Json.getItem, Json.sliceTo4, pyInt,
          exceptBind_ok, hpi]
  · intro hy hd
    rcases hd with hnone | ⟨fs, hsnap, hl⟩
    · simp [Movie.display_year, hy, hnone]
    · by_cases he : fs.isEmpty
      · simp [Movie.display_year, hy, hsnap, Json.truthy, he]
      · simp [Movie.display_year, hy, hsnap, Json.truthy, he,
          Json.containsKey, hl]
  · by_cases hy : optIntTruthy m.year
    · simp [Movie.display_year, hy, exceptOk]
    · cases hsnap : m.tmdb_snapshot with
      | none => simp [Movie.display_year, hy, hsnap, exceptOk]
      | some j =>
        rw [hsnap] at h
        cases j with
        | obj fs =>
          by_cases he : fs.isEmpty
          · simp [Movie.display_year, hy, hsnap, Json.truthy, he, exceptOk]
          · cases hl : lookupField "release_date" fs with
            | none =>
                simp [Movie.display_year, hy, hsnap, Json.truthy, he,
                  Json.containsKey, hl, exceptOk]
            | some v =>
                cases v with
                | str s =>
                    cases hpi : pyIntOfString (String.mk (s.data.take 4)) with
                    | none =>
                        simp [Movie.display_year, hy, hsnap, Json.truthy, he,
                          Json.containsKey, hl, Json.getItem, Json.sliceTo4,
                          pyInt, exceptBind_ok, hpi, exceptOk]
                    | some n =>
                        simp [Movie.display_year, hy, hsnap, Json.truthy, he,
                          Json.containsKey, hl, Json.getItem, Json.sliceTo4,
                          pyInt, exceptBind_ok, hpi, exceptOk]
                | null =>
                    simp [Movie.display_year, hy, hsnap, Json.truthy, he,
                      Json.containsKey, hl, Json.getItem, Json.sliceTo4,
                      exceptBind_ok, exceptBind_err, exceptOk]
                | bool b =>
                    simp [Movie.display_year, hy, hsnap, Json.truthy, he,
                      Json.containsKey, hl, Json.getItem, Json.sliceTo4,
                      exceptBind_ok, exceptBind_err, exceptOk]
                | num n =>
                    simp [Movie.display_year, hy, hsnap, Json.truthy, he,
                      Json.containsKey, hl, Json.getItem, Json.sliceTo4,
                      exceptBind_ok, exceptBind_err, exceptOk]
                | arr ys =>
                    simp [Movie.display_year, hy, hsnap, Json.truthy, he,
                      Json.containsKey, hl, Json.getItem, Json.sliceTo4,
                      pyInt, exceptBind_ok, exceptBind_err, exceptOk]
                | obj ofs =>
                    simp [Movie.display_year, hy, hsnap, Json.truthy, he,
                      Json.containsKey, hl, Json.getItem, Json.sliceTo4,
                      exceptBind_ok, exceptBind_err, exceptOk]
        | null => simp [snapshotBenign] at h
        | bool b => simp [snapshotBenign] at h
        | num n => simp [snapshotBenign] at h
        | str s => simp [snapshotBenign] at h
        | arr xs => simp [snapshotBenign] at h

/-- C3 witness: `"2019-05-01"` yields 2019 and `"bad"` yields absent. -/
theorem display_year_first4_witness :
    movieRd2019.display_year = Except.ok (some 2019) ∧
      movieRdBad.display_year = Except.ok none := by
  constructor
  · have h := (display_year_first4 movieRd2019 rfl).2.1 rfl
      [("release_date", Json.str "2019-05-01")] "2019-05-01" rfl rfl
    exact h.trans rfl
  · have h := (display_year_first4 movieRdBad rfl).2.1 rfl
      [("release_date", Json.str "bad")] "bad" rfl rfl
    exact h.trans rfl

/-- C4 counterexample: with the snapshot holding the JSON number `7`,
`display_overview` raises `TypeError` instead of resolving to the
default empty string. -/
theorem display_overview_raises_on_int_snapshot :
    movieIntSnap7.display_overview =
      Except.error (PyErr.typeError "argument of type int is not iterable") ∧
      exceptOk movieIntSnap7.display_overview = false :=
  ⟨rfl, rfl⟩

/-- C4 (amended): each display value resolves local override, then
snapshot, then default, and the local field always wins when truthy; the
snapshot-consulting clauses hold whenever the snapshot is absent or a
JSON object (with name-bearing genres elements for `display_genres`). -/
theorem display_resolution_order (m : Movie) :
    (∀ t, m.title = some t → t ≠ "" → m.display_title = .ok (.str t)) ∧
      (optStrTruthy m.title = false → ∀ fs v,
        m.tmdb_snapshot = some (.obj fs) → lookupField "title" fs = some v →
        m.display_title = .ok v) ∧
      (optStrTruthy m.title = false →
        (m.tmdb_snapshot = none ∨
          ∃ fs, m.tmdb_snapshot = some (.obj fs) ∧
            lookupField "title" fs = none) →
        m.display_title = .ok (.str "Unknown Title")) ∧
      (∀ o, m.overview = some o → o ≠ "" → m.display_overview = .ok (.str o)) ∧
      (optStrTruthy m.overview = false → ∀ fs v,
        m.tmdb_snapshot = some (.obj fs) → lookupField "overview" fs = some v →
        m.display_overview = .ok v) ∧
      (optStrTruthy m.overview = false →
        (m.tmdb_snapshot = none ∨
          ∃ fs, m.tmdb_snapshot = some (.obj fs) ∧
            lookupField "overview" fs = none) →
        m.display_overview = .ok (.str "")) ∧
      (∀ l, m.genres = some l → l ≠ [] →
        m.display_genres = .ok (l.map Json.str)) ∧
      (optListTruthy m.genres = false → ∀ fs xs,
        m.tmdb_snapshot = some (.obj fs) →
        lookupField "genres" fs = some (.arr xs) →
        xs.all genreHasName = true →
        m.display_genres = .ok (xs.map nameOf)) ∧
      (optListTruthy m.genres = false →
        (m.tmdb_snapshot = none ∨
          ∃ fs, m.tmdb_snapshot = some (.obj fs) ∧
            lookupField "genres" fs = none) →
        m.display_genres = .ok []) ∧
      (∀ p, m.custom_poster_path = some p → p ≠ "" →
        m.poster_url = .ok (some ("/media/posters/" ++ p))) ∧
      (optStrTruthy m.custom_poster_path = false → ∀ fs v,
        m.tmdb_snapshot = some (.obj fs) →
        lookupField "poster_path" fs = some v →
        m.poster_url =
          .ok (some ("https://image.tmdb.org/t/p/w500" ++ Json.pyStr v))) ∧
      (optStrTruthy m.custom_poster_path = false →
        (m.tmdb_snapshot = none ∨
          ∃ fs, m.tmdb_snapshot = some (.obj fs) ∧
            lookupField "poster_path" fs = none) →
        m.poster_url = .ok none) := by
  refine ⟨?_, ?_, ?_, ?_, ?_, ?_, ?_, ?_, ?_, ?_, ?_, ?_⟩
  · intro t hy hne
    simp [Movie.display_title, hy, optStrTruthy_of_ne hne]
  · intro ht fs v hsnap hl
    simp [Movie.display_title, ht, hsnap, Json.truthy, lookupField_ne_nil hl,
      Json.containsKey, hl, Json.getItem]
  · intro ht hd
    rcases hd with hnone | ⟨fs, hsnap, hl⟩
    · simp [Movie.display_title, ht, hnone]
    · by_cases he : fs.isEmpty
      · simp [Movie.display_title, ht, hsnap, Json.truthy, he]
      · simp [Movie.display_title, ht, hsnap, Json.truthy, he,
          Json.containsKey, hl]
  · intro o hy hne
    simp [Movie.display_overview, hy, optStrTruthy_of_ne hne]
  · intro ho fs v hsnap hl
    simp [Movie.display_overview, ho, hsnap, Json.truthy, lookupField_ne_nil hl,
      Json.containsKey, hl, Json.getItem]
  · intro ho hd
    rcases hd with hnone | ⟨fs, hsnap, hl⟩
    · simp [Movie.display_overview, ho, hnone]
    · by_cases he : fs.isEmpty
      · simp [Movie.display_overview, ho, hsnap, Json.truthy, he]
      · simp [Movie.display_overview, ho, hsnap, Json.truthy, he,
          Json.containsKey, hl]
  · intro l hy hne
    simp [Movie.display_genres, hy, optListTruthy_of_ne hne]
  · intro hg fs xs hsnap hl hall
    have hdg : m.display_genres = xs.mapM (Json.getItem "name") := by
      simp [Movie.display_genres, hg, hsnap, Json.truthy,
        lookupField_ne_nil hl, Json.containsKey, hl, Json.getItem,
        Json.pyIter, exceptBind_ok]
    rw [hdg, mapM_names hall]
  · intro hg hd
    rcases hd with hnone | ⟨fs, hsnap, hl⟩
    · simp [Movie.display_genres, hg, hnone]
    · by_cases he : fs.isEmpty
      · simp [Movie.display_genres, hg, hsnap, Json.truthy, he]
      · simp [Movie.display_genres, hg, hsnap, Json.truthy, he,
          Json.containsKey, hl]
  · intro p hy hne
    simp [Movie.poster_url, hy, optStrTruthy_of_ne hne]
  · intro hp fs v hsnap hl
    simp [Movie.poster_url, hp, hsnap, Json.truthy, lookupField_ne_nil hl,
      Json.containsKey, hl, Json.getItem, exceptBind_ok]
  · intro hp hd
    rcases hd with hnone | ⟨fs, hsnap, hl⟩
    · simp [Movie.poster_url, hp, hnone]
    · by_cases he : fs.isEmpty
      · simp [Movie.poster_url, hp, hsnap, Json.truthy, he]
      · simp [Movie.poster_url, hp, hsnap, Json.truthy, he,
          Json.containsKey, hl]

/-- C4 witness: a movie with a full snapshot and no overrides resolves
title, genres and poster from the snapshot. -/
theorem display_resolution_order_witness :
    movieSnapFull.display_title = .ok (.str "The Matrix") ∧
      movieSnapFull.display_genres =
        .ok [.str "Action", .str "Sci-Fi"] ∧
      movieSnapFull.poster_url =
        .ok (some "https://image.tmdb.org/t/p/w500/abc.jpg") := by
  refine ⟨?_, ?_, ?_⟩
  · exact (display_resolution_order movieSnapFull).2.1 rfl _ _ rfl rfl
  · have h := (display_resolution_order movieSnapFull).2.2.2.2.2.2.2.1 rfl
      _ _ rfl rfl rfl
    exact h.trans rfl
  · have h :=
      (display_resolution_order movieSnapFull).2.2.2.2.2.2.2.2.2.2.1 rfl
        _ _ rfl rfl
    exact h.trans rfl

/-- C9: write-and-verify writes the payload to the fixed diagnostic key
with a 60-second TTL; an immediate readback decodes to the payload
unchanged with reported TTL 60 (so > 0 and ≤ 60) and the byte size of the
stored value; and whenever the readback is absent the endpoint reports an
HTTP 500 error rather than succeeding.  The `json` round-trip is the
standard library's contract, taken as a hypothesis and discharged by
evaluation in the witness. -/
theorem cache_write_and_verify (st : RedisStore) (t : Int) (d : TestData)
    (hround : jsonLoads (jsonDumps d.toJson) = Except.ok d.toJson) :
    (test_cache st t t t d).1 =
        CacheResult.success d.toJson 60 (jsonDumps d.toJson).length ∧
      (test_cache st t t t d).2 =
        redis_setex st t "cinebase:test:cache" 60 (jsonDumps d.toJson) ∧
      (0 : Int) < 60 ∧ (60 : Int) ≤ 60 ∧
      (∀ tG, redis_get (redis_setex st t "cinebase:test:cache" 60
            (jsonDumps d.toJson)) tG "cinebase:test:cache" = none →
        (test_cache st t tG t d).1 =
          CacheResult.err500
            "Cache test failed: 500: Failed to retrieve cached data") := by
  have hlt : t < t + 60 := by omega
  have hfind : (redis_setex st t "cinebase:test:cache" 60
      (jsonDumps d.toJson)).entries.find?
        (fun e => e.1 == "cinebase:test:cache") =
      some ("cinebase:test:cache", jsonDumps d.toJson, t + 60) := by
    simp [redis_setex, List.find?]
  have hget : redis_get (redis_setex st t "cinebase:test:cache" 60
      (jsonDumps d.toJson)) t "cinebase:test:cache" =
      some (jsonDumps d.toJson) := by
    simp [redis_get, hfind, hlt]
  have httl : redis_ttl (redis_setex st t "cinebase:test:cache" 60
      (jsonDumps d.toJson)) t "cinebase:test:cache" = 60 := by
    simp [redis_ttl, hfind, hlt]
  have hne : (jsonDumps d.toJson).data.isEmpty = false := rfl
  refine ⟨?_, ?_, by omega, by omega, ?_⟩
  · simp [test_cache, hget, hne, hround, httl]
  · simp [test_cache, hget, hne, hround]
  · intro tG hnone
    simp [test_cache, hnone]

/-- C9 witness: the write-and-verify theorem applied to an empty store at
time 0 with a concrete payload; the JSON round-trip hypothesis holds by
evaluation. -/
theorem cache_write_and_verify_witness :
    jsonLoads (jsonDumps testData0.toJson) = Except.ok testData0.toJson ∧
      (test_cache ⟨[]⟩ 0 0 0 testData0).1 =
        CacheResult.success testData0.toJson 60
          (jsonDumps testData0.toJson).length :=
  ⟨rfl, (cache_write_and_verify ⟨[]⟩ 0 testData0 rfl).1⟩

/-- C10: `has_genre g` holds exactly when some element of the stored
genres list equals `g` after lower-casing both sides, and a null `genres`
column gives the empty `genres_list` and a universally false `has_genre`. -/
theorem has_genre_spec (m : Movie) (g : String) :
    (m.has_genre g = true ↔
      ∃ x, x ∈ m.genres_list ∧ pyLower x = pyLower g) ∧
      (m.genres = none → m.genres_list = [] ∧ m.has_genre g = false) := by
  constructor
  · simp only [Movie.has_genre, List.contains, List.elem_iff, List.mem_map]
  · intro h
    refine ⟨by simp [Movie.genres_list, h], ?_⟩
    simp [Movie.has_genre, Movie.genres_list, h, List.contains]

/-- C10 witness: a concrete movie with genres `["Drama", "Sci-Fi"]` has
genre `"DRAMA"`, and a null-genres movie has the empty list. -/
theorem has_genre_spec_witness :
    movieTwoGenres.has_genre "DRAMA" = true ∧ movieNeither.genres_list = [] :=
  ⟨(has_genre_spec movieTwoGenres "DRAMA").1.mpr
      ⟨"Drama", by decide⟩,
    ((has_genre_spec movieNeither "x").2 rfl).1⟩

end CineBase
